import Mathlib

/-!
Shallow embedding of the beetsonic Subsonic-API layer
(`beetsplug/beetsonic/models.py` and `beetsplug/beetsonic/web.py`).

The code is Python 2 (it concatenates `str` into `hashlib.md5().update`,
which only works there), so Python-2 semantics are modelled where they
matter: `split(':')` splits on every colon, mixed number/string
comparison orders every number below every string, and `IOError` and
`OSError` are distinct exception classes.
-/

namespace Beetsonic

/-! ### Python string primitives -/

/-- Python `s.split(c)` for a one-character separator: the list of
maximal separator-free segments, keeping empty segments. -/
def splitOnChar (c : Char) : List Char → List (List Char)
  | [] => [[]]
  | x :: xs =>
    if x = c then [] :: splitOnChar c xs
    else
      match splitOnChar c xs with
      | r :: rs => (x :: r) :: rs
      | [] => [[x]]

/-- Python `s.strip()`: drop whitespace from both ends. -/
def stripWs (cs : List Char) : List Char :=
  ((cs.dropWhile Char.isWhitespace).reverse.dropWhile Char.isWhitespace).reverse

/-- Decimal value of a digit string, most significant digit first. -/
def decimalVal (cs : List Char) : Nat :=
  cs.foldl (fun a c => a * 10 + (c.toNat - 48)) 0

/-- The digits part of Python `int(s)`: non-empty, all decimal digits. -/
def parseDigits (cs : List Char) : Option Nat :=
  if cs ≠ [] ∧ cs.all Char.isDigit then some (decimalVal cs) else none

/-- Python `int(s)` after stripping: optional sign, then digits. -/
def parseIntCore (cs : List Char) : Option Int :=
  match cs with
  | [] => none
  | c :: rest =>
    if c = '+' then (parseDigits rest).map Int.ofNat
    else if c = '-' then (parseDigits rest).map (fun n => -(n : Int))
    else (parseDigits (c :: rest)).map Int.ofNat

/-- Python `int(s)`: `none` models the `ValueError` raised on strings
that do not parse as an integer. -/
def pyParseInt (s : String) : Option Int :=
  parseIntCore (stripWs s.data)

/-- Decimal digits of `n`, most significant first; `fuel` bounds the
recursion and is chosen large enough by the caller. -/
def natDecimalAux (fuel : Nat) (n : Nat) : List Char :=
  match fuel with
  | 0 => []
  | fuel + 1 =>
    if n = 0 then [] else natDecimalAux fuel (n / 10) ++ [Nat.digitChar (n % 10)]

/-- Decimal rendering of a natural number (Python `str(n)` for `n ≥ 0`). -/
def natDecimal (n : Nat) : List Char :=
  if n = 0 then ['0'] else natDecimalAux n n

/-- Python `str(i)` for an integer. -/
def pyStrOfInt (i : Int) : String :=
  if i < 0 then ⟨'-' :: natDecimal i.natAbs⟩ else ⟨natDecimal i.toNat⟩

/-! ### Identifier codec (`models.BeetIdType`) -/

inductive BeetIdType
  | album
  | item
  | artist
  | playlist
deriving DecidableEq

/-- Raw identifier values: an integer for album/item, a string for
artist/playlist. -/
inductive IdValue
  | intVal (n : Int)
  | strVal (s : String)
deriving DecidableEq

/-- The error/exception classes this layer raises.  `formatError` and
`validationError` are both Python `ValueError` (message "Invalid Id"
vs "Wrong ... Id"); `entityNotFound` is the `EntityNotFoundError`
class; the rest model other Python exception classes. -/
inductive ModelError
  | formatError
  | validationError
  | entityNotFound
  | attributeError
  | typeError
  | osError
  | ioError
deriving DecidableEq

/-- The enum lookup `BeetIdType(value)`. -/
def kindOfString (s : String) : Option BeetIdType :=
  if s = "album" then some .album
  else if s = "item" then some .item
  else if s = "artist" then some .artist
  else if s = "playlist" then some .playlist
  else none

/-- Conversion of `value_parts[1]` once the kind is known: for
album/item it must parse as an integer (`int(value_parts[1])`),
otherwise it is kept as a string. -/
def get_type_checked (t : BeetIdType) (p1 : List Char) :
    Except ModelError (BeetIdType × IdValue) :=
  if t = .album ∨ t = .item then
    match pyParseInt ⟨p1⟩ with
    | none => .error .formatError
    | some n => .ok (t, .intVal n)
  else .ok (t, .strVal ⟨p1⟩)

/-- Body of `BeetIdType.get_type` once the id has been split: the
first part must name a kind (`BeetIdType(value_parts[0])`). -/
def get_type_kind (p0 p1 : List Char) : Except ModelError (BeetIdType × IdValue) :=
  match kindOfString ⟨p0⟩ with
  | none => .error .formatError
  | some t => get_type_checked t p1

/-- Dispatch on the result of `value.split(':')`: fewer than two parts
(`len(value_parts) <= 1`) is an invalid id; only `value_parts[0]` and
`value_parts[1]` are consulted. -/
def get_type_parts : List (List Char) → Except ModelError (BeetIdType × IdValue)
  | p0 :: p1 :: _ => get_type_kind p0 p1
  | _ => .error .formatError

/-- `BeetIdType.get_type`. -/
def get_type (value : String) : Except ModelError (BeetIdType × IdValue) :=
  get_type_parts (splitOnChar ':' value.data)

/-- `BeetIdType.get_artist_id`. -/
def get_artist_id (name : String) : String := "artist" ++ ":" ++ name

/-- `BeetIdType.get_album_id`. -/
def get_album_id (album_id : Int) : String := "album" ++ ":" ++ pyStrOfInt album_id

/-- `BeetIdType.get_item_id`. -/
def get_item_id (item_id : Int) : String := "item" ++ ":" ++ pyStrOfInt item_id

/-- `BeetIdType.get_playlist_id`. -/
def get_playlist_id (playlist_name : String) : String := "playlist" ++ ":" ++ playlist_name

/-! ### Protocol-version check (`web.check_version`) -/

/-- `SUBSONIC_API_VERSION` in `web.py`. -/
def SUBSONIC_API_VERSION : String := "1.16.1"

/-- Outcome of a `before_request` hook: either it short-circuits with a
specific error envelope, lets the request proceed to the handler, or
raises an unhandled Python exception. -/
inductive HookOutcome
  | missingParam
  | serverUpgrade
  | clientUpgrade
  | proceed
  | crash
deriving DecidableEq

/-- `list(map(int, version.split('.')))`: every dot-separated component
must parse as an integer, else `ValueError` propagates. -/
def parseVersionParts (v : String) : Option (List Int) :=
  let parts := (splitOnChar '.' v.data).map (fun p => pyParseInt ⟨p⟩)
  if parts.all Option.isSome then some (parts.map (fun o => o.getD 0)) else none

/-- `web.check_version`: compares client major/minor against the
server's; only `parts[0]` and `parts[1]` are consulted, and a missing
component raises `IndexError` (modelled as `crash`). -/
def check_version (v : Option String) : HookOutcome :=
  match v with
  | none => .missingParam
  | some cv =>
    match parseVersionParts cv, parseVersionParts SUBSONIC_API_VERSION with
    | some c, some s =>
      match c.get? 0, s.get? 0, c.get? 1, s.get? 1 with
      | some c0, some s0, c1?, s1? =>
        if c0 > s0 then .serverUpgrade
        else if c0 < s0 then .clientUpgrade
        else
          match c1?, s1? with
          | some c1, some s1 => if c1 > s1 then .serverUpgrade else .proceed
          | _, _ => .crash
      | _, _, _, _ => .crash
    | _, _ => .crash

/-! ### Byte-range delivery (`web.BinaryView.send_file_partial`) -/

/-- `re.search('(\d+)-(\d*)', header)`: the first maximal digit run
immediately followed by `'-'`, together with the (possibly empty) digit
run after the dash. -/
def findRange : List Char → Option (List Char × List Char)
  | [] => none
  | c :: cs =>
    if c.isDigit then
      match cs.dropWhile Char.isDigit with
      | '-' :: rest2 =>
        some ((c :: cs).takeWhile Char.isDigit, rest2.takeWhile Char.isDigit)
      | _ => findRange cs
    else findRange cs

/-- A partial-content response: HTTP status, body bytes, and the
`Content-Range` header. -/
structure RangeResponse where
  status : Nat
  body : List Nat
  contentRange : Option String
deriving DecidableEq

/-- Result of the binary path: `send_file` of the whole file, a 206
partial response, or an unhandled exception (`m.groups()` on `None`). -/
inductive BinaryResult
  | full (body : List Nat)
  | partialContent (r : RangeResponse)
  | crash
deriving DecidableEq

/-- `BinaryView.send_file_partial`: without a `Range` header the whole
file is served; otherwise `byte1`/`byte2` come from the regex groups,
`length = size - byte1` for an open-ended range and `byte2 - byte1`
otherwise, exactly `length` bytes are read from offset `byte1`
(a negative length reads to end-of-file, as Python 2 `file.read`
does), and the header reports `bytes byte1-(byte1+length-1)/size`. -/
def send_file_partial (file : List Nat) (rangeHeader : Option String) :
    BinaryResult :=
  match rangeHeader with
  | none => .full file
  | some h =>
    match findRange h.data with
    | none => .crash
    | some (g0, g1) =>
      let size : Int := file.length
      let byte1 : Int := if g0 = [] then 0 else (decimalVal g0 : Int)
      let byte2 : Option Int := if g1 = [] then none else some (decimalVal g1 : Int)
      let length : Int :=
        match byte2 with
        | none => size - byte1
        | some b2 => b2 - byte1
      let body :=
        if length < 0 then file.drop byte1.toNat
        else (file.drop byte1.toNat).take length.toNat
      .partialContent
        { status := 206
          body := body
          contentRange := some ("bytes " ++ pyStrOfInt byte1 ++ "-" ++
            pyStrOfInt (byte1 + length - 1) ++ "/" ++ pyStrOfInt size) }

/-! ### Credential check (`web.authenticate`) -/

/-- The request arguments consulted by the authentication hook. -/
structure AuthArgs where
  u : Option String
  p : Option String
  t : Option String
  s : Option String

/-- Outcome of the authentication hook: handler runs (`ok`), HTTP 403
(`forbidden`), a required-parameter error envelope, or an unhandled
exception (invalid hex after `enc:`). -/
inductive AuthOutcome
  | ok
  | forbidden
  | requiredParam
  | uncaught
deriving DecidableEq

/-- `web.authenticate`, parametrised by the md5-hex-digest function and
the hex decoder (`bytearray.fromhex(...).decode()`), which are external
library calls.  A present `p` argument is checked first; the salted
token is checked only when `p` is absent and both `t` and `s` are
present; otherwise a required-parameter error envelope is returned. -/
def authenticate (md5hex : String → String) (hexDecode : String → Option String)
    (username password : String) (a : AuthArgs) : AuthOutcome :=
  match a.u with
  | none => .requiredParam
  | some u =>
    if u ≠ username then .forbidden
    else
      match a.p with
      | some pw =>
        match (if pw.startsWith "enc:" then hexDecode (pw.drop 4) else some pw) with
        | none => .uncaught
        | some pw' => if pw' ≠ password then .forbidden else .ok
      | none =>
        match a.t, a.s with
        | some tok, some salt =>
          if tok ≠ md5hex (password ++ salt) then .forbidden else .ok
        | _, _ => .requiredParam

/-! ### Catalog snapshot objects -/

/-- A beets `Item` row (the fields this layer reads). -/
structure Item where
  id : Int
  title : String
  album_id : Option Int
  genre : String
  year : Int
  path : String
  length : Int
deriving DecidableEq

/-- A beets `Album` row (the fields this layer reads). -/
structure Album where
  id : Int
  album : String
  albumartist : String
  year : Int
  genre : String
  artpath : Option String
  added : Int
deriving DecidableEq

/-- The beets library: the albums and items tables. -/
structure Library where
  albums : List Album
  items : List Item
deriving DecidableEq

/-! ### Conditional index listing (`web.get_indexes`) -/

/-- A Python value appearing in the `last_modified <= if_modified_since`
comparison: the left side is a number, the right side is the raw query
string (or the integer default `0` when absent). -/
inductive PyVal
  | int (n : Int)
  | str (s : String)
deriving DecidableEq

/-- CPython 2 `<=` on mixed values: numbers of any numeric type compare
by value, and any number compares strictly below any non-number (so
below every string); two strings compare lexicographically. -/
def pyLe : PyVal → PyVal → Bool
  | .int a, .int b => a ≤ b
  | .str a, .str b => a = b || decide (a < b)
  | .int _, .str _ => true
  | .str _, .int _ => false

/-- The `indexes` payload: `create_indexes` output with `lastModified`
set and the singleton children appended. -/
structure Indexes where
  lastModified : Int
  artists : List String
  children : List Item
deriving DecidableEq

/-- `web.get_indexes`: `if_modified_since` is the raw query-string value
(default integer `0`); when `last_modified <= if_modified_since` the
handler returns without setting any result (`none`), otherwise it sets
the indexes payload. -/
def get_indexes (ifModifiedSince : Option String) (lastModified : Int)
    (albumArtists : List String) (singletons : List Item) : Option Indexes :=
  let ims : PyVal :=
    match ifModifiedSince with
    | none => .int 0
    | some s => .str s
  if pyLe (.int lastModified) ims then none
  else some { lastModified := lastModified, artists := albumArtists,
              children := singletons }

/-! ### Random songs (`models.BeetsModel.get_random_songs`) -/

/-- `listStartsWith needle hay`: `needle` is an initial segment of `hay`. -/
def listStartsWith : List Char → List Char → Bool
  | [], _ => true
  | _ :: _, [] => false
  | a :: as, b :: bs => a = b && listStartsWith as bs

/-- `containsSub needle hay`: `needle` occurs contiguously in `hay`. -/
def containsSub (needle : List Char) : List Char → Bool
  | [] => needle.isEmpty
  | c :: cs => listStartsWith needle (c :: cs) || containsSub needle cs

/-- Case-insensitive substring match, as a beets `genre:<g>` query. -/
def genreMatches (g : String) (it : Item) : Bool :=
  containsSub (g.data.map Char.toLower) (it.genre.data.map Char.toLower)

/-- Lower bound of a beets `year:a..b` query (empty bound is open). -/
def yearLowerOk (f : String) (it : Item) : Bool :=
  match pyParseInt f with
  | none => true
  | some a => a ≤ it.year

/-- Upper bound of a beets `year:a..b` query (empty bound is open). -/
def yearUpperOk (t : String) (it : Item) : Bool :=
  match pyParseInt t with
  | none => true
  | some b => it.year ≤ b

/-- The filter built by `get_random_songs`: a `genre:` clause only when
`genre` is truthy, a `year:from..to` clause only when at least one of
`from_year`/`to_year` is truthy, both bounds inclusive. -/
def itemFilter (genre fromYear toYear : Option String) (it : Item) : Bool :=
  let g := genre.getD ""
  let f := fromYear.getD ""
  let t := toYear.getD ""
  (g = "" || genreMatches g it) &&
    ((f = "" && t = "") || (yearLowerOk f it && yearUpperOk t it))

/-- CPython's `random.sample` (pool algorithm): at step `i` a uniform
index `j` below the current pool size is drawn (modelled by reducing
the oracle `rand i` modulo the pool size), `pool[j]` is output, and
the pool's last element is moved into slot `j` while the pool shrinks
by one. -/
def sampleGo (rand : Nat → Nat) : Nat → Nat → List α → List α
  | _, 0, _ => []
  | _, _ + 1, [] => []
  | step, k + 1, x :: xs =>
    (x :: xs).get ⟨rand step % (x :: xs).length, Nat.mod_lt _ (by simp)⟩ ::
      sampleGo rand (step + 1) k
        (((x :: xs).set (rand step % (x :: xs).length)
          ((x :: xs).getLast (List.cons_ne_nil x xs))).dropLast)

/-- `BeetsModel.get_random_songs`: skipped entirely unless
`music_folder_id` is falsy (absent or empty) or equals `'1'`; otherwise
filters the items and draws `random.sample` of `min(len(result), size)`
elements. -/
def get_random_songs (rand : Nat → Nat) (lib : Library) (size : Nat)
    (genre fromYear toYear musicFolderId : Option String) : List Item :=
  if musicFolderId.getD "" = "" || musicFolderId = some "1" then
    sampleGo rand 0
      (min (lib.items.filter (itemFilter genre fromYear toYear)).length size)
      (lib.items.filter (itemFilter genre fromYear toYear))
  else []

/-- A concrete two-item library used by witnesses. -/
def sampleLibrary : Library :=
  { albums := []
    items := [
      { id := 1, title := "a", album_id := none, genre := "rock",
        year := 2000, path := "pa", length := 100 },
      { id := 2, title := "b", album_id := none, genre := "pop",
        year := 2001, path := "pb", length := 200 }] }

/-- A concrete one-item library used by witnesses. -/
def sampleLibrary1 : Library :=
  { albums := []
    items := [
      { id := 1, title := "a", album_id := none, genre := "rock",
        year := 2000, path := "pa", length := 100 }] }

/-! ### Direct lookups (`get_album`, `get_song`, `get_artist_with_albums`) -/

/-- An empty library, used by witnesses. -/
def emptyLibrary : Library := { albums := [], items := [] }

/-- `lib.get_album(id)`. -/
def lib_get_album (lib : Library) (i : Int) : Option Album :=
  lib.albums.find? (fun a => a.id = i)

/-- `lib.get_item(id)`. -/
def lib_get_item (lib : Library) (i : Int) : Option Item :=
  lib.items.find? (fun it => it.id = i)

/-- `album.items()`: the items belonging to an album. -/
def albumItems (lib : Library) (albumId : Int) : List Item :=
  lib.items.filter (fun it => it.album_id = some albumId)

/-- A beets `albumartist:<name>` query: case-insensitive substring
match on the albumartist field. -/
def albumArtistMatches (name : String) (a : Album) : Bool :=
  containsSub (name.data.map Char.toLower) (a.albumartist.data.map Char.toLower)

/-- The `AlbumWithSongsID3` payload built by `get_album`. -/
structure AlbumWithSongs where
  id : String
  name : String
  songCount : Nat
  duration : Int
  children : List Item
  artist : String
  artistId : String
  coverArt : String
  year : Int
  genre : String
deriving DecidableEq

/-- The `ArtistWithAlbumsID3` payload built by `get_artist_with_albums`
(the album rows backing the `AlbumID3` entries). -/
structure ArtistWithAlbums where
  id : String
  name : String
  albumCount : Nat
  albums : List Album
  coverArt : String
deriving DecidableEq

/-- Body of `BeetsModel.get_album` after decoding: a non-album kind is
the `ValueError('Wrong Album Id')`; a valid kind with no matching album
row crashes (`album.items()` on `None`, an `AttributeError`). -/
def get_album_checked (lib : Library) (t : BeetIdType) (v : IdValue) :
    Except ModelError AlbumWithSongs :=
  if t ≠ .album then .error .validationError
  else
    match v with
    | .intVal i =>
      match lib_get_album lib i with
      | none => .error .attributeError
      | some a =>
        .ok { id := get_album_id a.id
              name := a.album
              songCount := (albumItems lib a.id).length
              duration := ((albumItems lib a.id).map Item.length).sum
              children := albumItems lib a.id
              artist := a.albumartist
              artistId := get_artist_id a.albumartist
              coverArt := get_album_id a.id
              year := a.year
              genre := a.genre }
    | .strVal _ => .error .attributeError

/-- `BeetsModel.get_album`. -/
def get_album (lib : Library) (album_id : String) :
    Except ModelError AlbumWithSongs :=
  match get_type album_id with
  | .error e => .error e
  | .ok (t, v) => get_album_checked lib t v

/-- Body of `BeetsModel.get_song` after decoding: a non-item kind is
the `ValueError('Wrong Item Id')`; a valid kind with no matching item
row crashes inside `_create_song(None)`. -/
def get_song_checked (lib : Library) (t : BeetIdType) (v : IdValue) :
    Except ModelError Item :=
  if t ≠ .item then .error .validationError
  else
    match v with
    | .intVal i =>
      match lib_get_item lib i with
      | none => .error .attributeError
      | some it => .ok it
    | .strVal _ => .error .attributeError

/-- `BeetsModel.get_song`. -/
def get_song (lib : Library) (item_id : String) : Except ModelError Item :=
  match get_type item_id with
  | .error e => .error e
  | .ok (t, v) => get_song_checked lib t v

/-- Body of `BeetsModel.get_artist_with_albums` after decoding: a
non-artist kind is the `ValueError('Wrong Artist Id')`; an artist with
zero matching albums is `EntityNotFoundError`. -/
def get_artist_checked (lib : Library) (artist_id : String)
    (t : BeetIdType) (v : IdValue) : Except ModelError ArtistWithAlbums :=
  if t ≠ .artist then .error .validationError
  else
    match v with
    | .strVal name =>
      if (lib.albums.filter (albumArtistMatches name)).length = 0 then
        .error .entityNotFound
      else
        .ok { id := artist_id
              name := name
              albumCount := (lib.albums.filter (albumArtistMatches name)).length
              albums := lib.albums.filter (albumArtistMatches name)
              coverArt := artist_id }
    | .intVal _ => .error .attributeError

/-- `BeetsModel.get_artist_with_albums`. -/
def get_artist_with_albums (lib : Library) (artist_id : String) :
    Except ModelError ArtistWithAlbums :=
  match get_type artist_id with
  | .error e => .error e
  | .ok (t, v) => get_artist_checked lib artist_id t v

/-! ### Playlists (`_get_playlist`, `get_playlist`, `get_playlists`) -/

/-- The state of a playlist file on disk: absent, present but not
readable (`open` raises `IOError`), or readable with a modification
time and the file paths it lists. -/
inductive FileState
  | missing
  | present (readable : Bool) (mtime : Int) (paths : List String)
deriving DecidableEq

/-- `os.path.basename`: the component after the last `/`. -/
def basename (p : String) : String :=
  ⟨(splitOnChar '/' p.data).getLastD []⟩

/-- The root part of `os.path.splitext` for a name with an extension:
everything before the last dot (the whole name when there is no dot). -/
def splitextRoot (p : String) : String :=
  let r := p.data.reverse
  if '.' ∈ r then ⟨((r.dropWhile (fun c => c ≠ '.')).drop 1).reverse⟩ else p

/-- The bound `Playlist` object: id/name from the filename, created and
changed both set to the file's mtime, and the entries intersected with
the library. -/
structure Playlist where
  id : String
  name : String
  owner : String
  songCount : Nat
  duration : Int
  created : Int
  changed : Int
  entries : List Item
deriving DecidableEq

/-- The success path of `_get_playlist`: parse the m3u, intersect its
paths with the library's items (`path:"..."` OR-query), and count and
sum over the intersection only. -/
def buildPlaylist (lib : Library) (location : String) (mtime : Int)
    (paths : List String) (username : String) : Playlist :=
  let fname := basename location
  let items := if paths.isEmpty then []
    else lib.items.filter (fun it => it.path ∈ paths)
  { id := get_playlist_id fname
    name := splitextRoot fname
    owner := username
    songCount := items.length
    duration := (items.map Item.length).sum
    created := mtime
    changed := mtime
    entries := items }

/-- `BeetsModel._get_playlist` under Python 2: `os.path.getmtime` on a
missing file raises `OSError`, which the local `except IOError` does
NOT catch, so it propagates; an existing but unreadable file raises
`IOError` at `open`, which IS caught, so the function returns `None`. -/
def get_playlist_file (lib : Library) (location : String) (fs : FileState)
    (username : String) : Except ModelError (Option Playlist) :=
  match fs with
  | .missing => .error .osError
  | .present readable mtime paths =>
    if readable then
      .ok (some (buildPlaylist lib location mtime paths username))
    else .ok none

/-- `BeetsModel.get_playlist`: takes the raw value of the decoded id
with no kind check (an integer raw value would make `os.path.join`
raise `TypeError`), joins it to the playlist directory, and delegates
to `_get_playlist`; `fsOf` gives the state of the file at a location. -/
def model_get_playlist (lib : Library) (playlist_id : String)
    (playlist_dir : String) (fsOf : String → FileState) (username : String) :
    Except ModelError (Option Playlist) :=
  match get_type playlist_id with
  | .error e => .error e
  | .ok (_, .intVal _) => .error .typeError
  | .ok (_, .strVal fname) =>
    get_playlist_file lib (playlist_dir ++ "/" ++ fname)
      (fsOf (playlist_dir ++ "/" ++ fname)) username

/-- What the `/getPlaylist.view` handler produces: `abort(404)` maps to
the requested-data-not-found (EntityNotFound) error envelope; a normal
return gives a success envelope whose payload is absent when the model
returned `None`. -/
inductive PlaylistViewOutcome
  | notFoundError
  | okEnvelope (playlist : Option Playlist)
  | uncaught (e : ModelError)
deriving DecidableEq

/-- The `/getPlaylist.view` handler: `except OSError: abort(404)`. -/
def web_get_playlist (lib : Library) (playlist_id : String)
    (playlist_dir : String) (fsOf : String → FileState) (username : String) :
    PlaylistViewOutcome :=
  match model_get_playlist lib playlist_id playlist_dir fsOf username with
  | .error .osError => .notFoundError
  | .error e => .uncaught e
  | .ok p => .okEnvelope p

/-- `BeetsModel.get_playlists`: iterate over the globbed files in
order, skipping those for which `_get_playlist` returned `None`; an
exception escaping `_get_playlist` aborts the whole enumeration. -/
def get_playlists (lib : Library) (files : List (String × FileState))
    (username : String) : Except ModelError (List Playlist) :=
  match files with
  | [] => .ok []
  | (loc, fs) :: rest =>
    match get_playlist_file lib loc fs username with
    | .error e => .error e
    | .ok p =>
      match get_playlists lib rest username with
      | .error e => .error e
      | .ok ps =>
        .ok (match p with
          | none => ps
          | some pl => pl :: ps)

/-! ## Theorems -/

/-! ### Lemmas about the string primitives -/

theorem splitOnChar_not_mem (c : Char) : ∀ (l : List Char), c ∉ l → splitOnChar c l = [l]
  | [], _ => rfl
  | x :: xs, h => by
    have hx : ¬ x = c := fun e => h (e ▸ List.mem_cons_self x xs)
    have ih := splitOnChar_not_mem c xs (fun m => h (List.mem_cons_of_mem x m))
    simp [splitOnChar, hx, ih]

theorem splitOnChar_append (c : Char) :
    ∀ (l₁ l₂ : List Char), c ∉ l₁ →
      splitOnChar c (l₁ ++ c :: l₂) = l₁ :: splitOnChar c l₂
  | [], l₂, _ => by simp [splitOnChar]
  | x :: xs, l₂, h => by
    have hx : ¬ x = c := fun e => h (e ▸ List.mem_cons_self x xs)
    have ih := splitOnChar_append c xs l₂ (fun m => h (List.mem_cons_of_mem x m))
    simp only [List.cons_append, splitOnChar, hx, if_false]
    rw [List.append_eq, ih]

theorem splitOnChar_mem (c : Char) :
    ∀ (l : List Char), c ∈ l →
      splitOnChar c l =
        l.takeWhile (fun x => x ≠ c) ::
          splitOnChar c ((l.dropWhile (fun x => x ≠ c)).drop 1)
  | x :: xs, h => by
    by_cases hx : x = c
    · subst hx
      simp [splitOnChar, List.takeWhile_cons, List.dropWhile_cons]
    · have hmem : c ∈ xs := by
        rcases List.mem_cons.mp h with h' | h'
        · exact absurd h'.symm hx
        · exact h'
      have ih := splitOnChar_mem c xs hmem
      simp only [splitOnChar, hx, if_false, ih, List.takeWhile_cons,
        List.dropWhile_cons]
      simp [hx]

theorem splitOnChar_head (c : Char) (l : List Char) :
    ∃ rest, splitOnChar c l = (l.takeWhile (fun x => x ≠ c)) :: rest := by
  by_cases h : c ∈ l
  · exact ⟨_, splitOnChar_mem c l h⟩
  · refine ⟨[], ?_⟩
    rw [splitOnChar_not_mem c l h, List.takeWhile_eq_self_iff.mpr ?_]
    intro x hx
    simp only [ne_eq, decide_eq_true_eq]
    rintro rfl
    exact h hx

/-! ### Decimal rendering and parsing round-trip -/

theorem digitChar_props {d : Nat} (h : d < 10) :
    (Nat.digitChar d).isDigit = true ∧ Nat.digitChar d ≠ '+' ∧
      Nat.digitChar d ≠ '-' ∧ Nat.digitChar d ≠ ':' ∧
      (Nat.digitChar d).isWhitespace = false := by
  interval_cases d <;> decide

theorem natDecimalAux_eq_digits :
    ∀ (fuel n : Nat), n ≤ fuel →
      natDecimalAux fuel n = ((Nat.digits 10 n).map Nat.digitChar).reverse
  | 0, 0, _ => by simp [natDecimalAux]
  | fuel + 1, n, h => by
    by_cases hn : n = 0
    · simp [natDecimalAux, hn]
    · have hrec : n / 10 ≤ fuel := by
        have := Nat.div_lt_self (Nat.pos_of_ne_zero hn) (by norm_num : 1 < 10)
        omega
      rw [natDecimalAux, if_neg hn, natDecimalAux_eq_digits fuel (n / 10) hrec,
        Nat.digits_def' (by norm_num : 1 < 10) (Nat.pos_of_ne_zero hn)]
      simp

theorem natDecimal_eq_digits (n : Nat) :
    natDecimal n =
      if n = 0 then ['0'] else ((Nat.digits 10 n).map Nat.digitChar).reverse := by
  unfold natDecimal
  by_cases h : n = 0
  · simp [h]
  · rw [if_neg h, if_neg h, natDecimalAux_eq_digits n n le_rfl]

theorem natDecimal_props (n : Nat) :
    ∀ c ∈ natDecimal n, c.isDigit = true ∧ c ≠ '+' ∧ c ≠ '-' ∧ c ≠ ':' ∧
      c.isWhitespace = false := by
  intro c hc
  rw [natDecimal_eq_digits] at hc
  by_cases h : n = 0
  · simp [h] at hc
    subst hc; decide
  · simp [h, List.mem_reverse, List.mem_map] at hc
    obtain ⟨d, hd, rfl⟩ := hc
    exact digitChar_props (Nat.digits_lt_base (by norm_num) hd)

theorem natDecimal_ne_nil (n : Nat) : natDecimal n ≠ [] := by
  rw [natDecimal_eq_digits]
  by_cases h : n = 0
  · simp [h]
  · simp [h, Nat.digits_ne_nil_iff_ne_zero]

theorem foldr_digitChar (ds : List Nat) (h : ∀ d ∈ ds, d < 10) :
    List.foldr (fun c a => a * 10 + (c.toNat - 48)) 0 (ds.map Nat.digitChar) =
      Nat.ofDigits 10 ds := by
  induction ds with
  | nil => simp [Nat.ofDigits]
  | cons d ds ih =>
    have hd : d < 10 := h d (List.mem_cons_self d ds)
    have hval : (Nat.digitChar d).toNat - 48 = d := by interval_cases d <;> decide
    simp only [List.map_cons, List.foldr_cons, Nat.ofDigits_cons,
      ih (fun x hx => h x (List.mem_cons_of_mem d hx)), hval]
    ring

theorem decimalVal_natDecimal (n : Nat) : decimalVal (natDecimal n) = n := by
  rw [natDecimal_eq_digits]
  unfold decimalVal
  by_cases h : n = 0
  · simp [h]
  · rw [if_neg h, List.foldl_reverse]
    have := foldr_digitChar (Nat.digits 10 n)
      (fun d hd => Nat.digits_lt_base (by norm_num) hd)
    simpa [this] using Nat.ofDigits_digits 10 n

theorem dropWhile_eq_self_of_none {p : Char → Bool} :
    ∀ (cs : List Char), (∀ c ∈ cs, p c = false) → cs.dropWhile p = cs
  | [], _ => rfl
  | x :: xs, h => by
    simp [List.dropWhile_cons, h x (List.mem_cons_self x xs)]

theorem stripWs_eq_self (cs : List Char)
    (h : ∀ c ∈ cs, c.isWhitespace = false) : stripWs cs = cs := by
  unfold stripWs
  rw [dropWhile_eq_self_of_none cs h,
    dropWhile_eq_self_of_none cs.reverse (fun c hc => h c (List.mem_reverse.mp hc)),
    List.reverse_reverse]

theorem parseDigits_natDecimal (n : Nat) :
    parseDigits (natDecimal n) = some n := by
  unfold parseDigits
  rw [if_pos, decimalVal_natDecimal]
  refine ⟨natDecimal_ne_nil n, ?_⟩
  exact List.all_eq_true.mpr (fun c hc => (natDecimal_props n c hc).1)

/-- `str`/`int` round-trip: Python `int(str(i)) == i`. -/
theorem pyParseInt_pyStrOfInt (i : Int) : pyParseInt (pyStrOfInt i) = some i := by
  unfold pyParseInt pyStrOfInt
  by_cases hi : i < 0
  · rw [if_pos hi]
    show parseIntCore (stripWs ('-' :: natDecimal i.natAbs)) = some i
    rw [stripWs_eq_self _ ?hws]
    case hws =>
      intro c hc
      rcases List.mem_cons.mp hc with rfl | hc
      · decide
      · exact (natDecimal_props _ c hc).2.2.2.2
    simp only [parseIntCore]
    rw [if_pos trivial, parseDigits_natDecimal]
    have hval : ((i.natAbs : Nat) : Int) = -i := by omega
    simp [hval]
  · rw [if_neg hi]
    show parseIntCore (stripWs (natDecimal i.toNat)) = some i
    rw [stripWs_eq_self _ (fun c hc => (natDecimal_props _ c hc).2.2.2.2)]
    obtain ⟨c, cs, hcons⟩ : ∃ c cs, natDecimal i.toNat = c :: cs := by
      cases h : natDecimal i.toNat with
      | nil => exact absurd h (natDecimal_ne_nil _)
      | cons c cs => exact ⟨c, cs, rfl⟩
    have hc := natDecimal_props i.toNat c (hcons ▸ List.mem_cons_self c cs)
    rw [hcons]
    simp only [parseIntCore]
    rw [if_neg (by simpa using hc.2.1), if_neg (by simpa using hc.2.2.1), ← hcons,
      parseDigits_natDecimal]
    have hval : ((i.toNat : Nat) : Int) = i := by omega
    simp [hval]

/-! ### Round-trip of the identifier codec -/

theorem data_encode (kind raw : String) :
    (kind ++ ":" ++ raw).data = kind.data ++ ':' :: raw.data := by
  simp [String.data_append]

theorem pyStrOfInt_no_colon (i : Int) : ':' ∉ (pyStrOfInt i).data := by
  unfold pyStrOfInt
  by_cases hi : i < 0
  · rw [if_pos hi]
    intro hmem
    rcases List.mem_cons.mp hmem with h | h
    · exact absurd h (by decide)
    · exact absurd rfl (natDecimal_props _ _ h).2.2.2.1
  · rw [if_neg hi]
    intro hmem
    exact absurd rfl (natDecimal_props _ _ hmem).2.2.2.1

theorem get_type_artist_id (name : String) (h : ':' ∉ name.data) :
    get_type (get_artist_id name) = .ok (.artist, .strVal name) := by
  unfold get_type get_artist_id
  rw [data_encode, splitOnChar_append _ _ _ (by decide), splitOnChar_not_mem _ _ h]
  show get_type_kind ("artist" : String).data name.data = _
  unfold get_type_kind
  have hk : kindOfString ⟨("artist" : String).data⟩ = some .artist := by decide
  rw [hk]
  rfl

theorem get_type_playlist_id (name : String) (h : ':' ∉ name.data) :
    get_type (get_playlist_id name) = .ok (.playlist, .strVal name) := by
  unfold get_type get_playlist_id
  rw [data_encode, splitOnChar_append _ _ _ (by decide), splitOnChar_not_mem _ _ h]
  show get_type_kind ("playlist" : String).data name.data = _
  unfold get_type_kind
  have hk : kindOfString ⟨("playlist" : String).data⟩ = some .playlist := by decide
  rw [hk]
  rfl

theorem get_type_album_id (n : Int) :
    get_type (get_album_id n) = .ok (.album, .intVal n) := by
  unfold get_type get_album_id
  rw [data_encode, splitOnChar_append _ _ _ (by decide),
    splitOnChar_not_mem _ _ (pyStrOfInt_no_colon n)]
  show get_type_kind ("album" : String).data (pyStrOfInt n).data = _
  unfold get_type_kind
  have hk : kindOfString ⟨("album" : String).data⟩ = some .album := by decide
  have hp : pyParseInt ⟨(pyStrOfInt n).data⟩ = some n := pyParseInt_pyStrOfInt n
  rw [hk]
  simp [get_type_checked, hp]

theorem get_type_item_id (n : Int) :
    get_type (get_item_id n) = .ok (.item, .intVal n) := by
  unfold get_type get_item_id
  rw [data_encode, splitOnChar_append _ _ _ (by decide),
    splitOnChar_not_mem _ _ (pyStrOfInt_no_colon n)]
  show get_type_kind ("item" : String).data (pyStrOfInt n).data = _
  unfold get_type_kind
  have hk : kindOfString ⟨("item" : String).data⟩ = some .item := by decide
  have hp : pyParseInt ⟨(pyStrOfInt n).data⟩ = some n := pyParseInt_pyStrOfInt n
  rw [hk]
  simp [get_type_checked, hp]

/-- C1 (counterexample): the round-trip fails for a string raw value
containing a colon.  `get_type` uses Python `split(':')` and takes
`value_parts[1]`, so encoding the artist name `"a:b"` and decoding the
result yields the truncated name `"a"`, not `"a:b"`. -/
theorem c1_round_trip_counterexample :
    get_type (get_artist_id "a:b") = .ok (.artist, .strVal "a") ∧
      (Except.ok (.artist, .strVal "a") :
          Except ModelError (BeetIdType × IdValue)) ≠
        .ok (.artist, .strVal "a:b") := by
  constructor
  · rfl
  · intro h
    have := congrArg (fun r => match r with
      | Except.ok (_, IdValue.strVal s) => s
      | _ => "") h
    exact absurd this (by decide)

/-- C1 (amended): decoding inverts encoding for every album/item id
(any integer) and for every artist/playlist name that contains no
colon; a name containing a colon is truncated at its first colon by
decoding. -/
theorem c1_round_trip (n m : Int) (aname pname : String)
    (ha : ':' ∉ aname.data) (hp : ':' ∉ pname.data) :
    get_type (get_album_id n) = .ok (.album, .intVal n) ∧
      get_type (get_item_id m) = .ok (.item, .intVal m) ∧
      get_type (get_artist_id aname) = .ok (.artist, .strVal aname) ∧
      get_type (get_playlist_id pname) = .ok (.playlist, .strVal pname) :=
  ⟨get_type_album_id n, get_type_item_id m, get_type_artist_id aname ha,
    get_type_playlist_id pname hp⟩

/-- Witness for `c1_round_trip` at concrete inputs. -/
theorem c1_round_trip_witness :
    (':' ∉ ("AC/DC" : String).data) ∧ (':' ∉ ("pl.m3u" : String).data) ∧
      (get_type (get_album_id 7) = .ok (.album, .intVal 7) ∧
        get_type (get_item_id (-3)) = .ok (.item, .intVal (-3)) ∧
        get_type (get_artist_id "AC/DC") = .ok (.artist, .strVal "AC/DC") ∧
        get_type (get_playlist_id "pl.m3u") = .ok (.playlist, .strVal "pl.m3u")) :=
  ⟨by decide, by decide,
    c1_round_trip 7 (-3) "AC/DC" "pl.m3u" (by decide) (by decide)⟩

/-- C2: `get_type` fails, always with the `ValueError` of the invalid-id
family (FormatError), exactly when the input has no colon, or the token
before the first colon is not a recognized kind, or the kind is
album/item and the token between the first and second colon does not
parse as an integer; every other input decodes successfully. -/
theorem c2_decode_failure (s : String) :
    (get_type s = .error .formatError ↔
      ':' ∉ s.data ∨
        kindOfString ⟨s.data.takeWhile (fun x => x ≠ ':')⟩ = none ∨
        (∃ t, kindOfString ⟨s.data.takeWhile (fun x => x ≠ ':')⟩ = some t ∧
          (t = .album ∨ t = .item) ∧
          pyParseInt ⟨((s.data.dropWhile (fun x => x ≠ ':')).drop 1).takeWhile
            (fun x => x ≠ ':')⟩ = none)) ∧
    (∀ e, get_type s = .error e → e = .formatError) ∧
    (get_type s ≠ .error .formatError → ∃ r, get_type s = .ok r) := by
  by_cases hmem : ':' ∈ s.data
  · obtain ⟨rest, hrest⟩ :=
      splitOnChar_head ':' ((s.data.dropWhile (fun x => x ≠ ':')).drop 1)
    have hgt : get_type s =
        get_type_kind (s.data.takeWhile (fun x => x ≠ ':'))
          (((s.data.dropWhile (fun x => x ≠ ':')).drop 1).takeWhile
            (fun x => x ≠ ':')) := by
      unfold get_type
      rw [splitOnChar_mem _ _ hmem, hrest]
      rfl
    rcases hk : kindOfString ⟨s.data.takeWhile (fun x => x ≠ ':')⟩ with _ | t
    · have heval : get_type s = .error .formatError := by
        rw [hgt]; unfold get_type_kind; rw [hk]
      exact ⟨⟨fun _ => Or.inr (Or.inl rfl), fun _ => heval⟩,
        fun e he => by simpa using he.symm.trans heval,
        fun hne => absurd heval hne⟩
    · have hstep : get_type s = get_type_checked t
          (((s.data.dropWhile (fun x => x ≠ ':')).drop 1).takeWhile
            (fun x => x ≠ ':')) := by
        rw [hgt]; unfold get_type_kind; rw [hk]
      by_cases ht : t = .album ∨ t = .item
      · rcases hp : pyParseInt
            ⟨((s.data.dropWhile (fun x => x ≠ ':')).drop 1).takeWhile
              (fun x => x ≠ ':')⟩ with _ | n
        · have heval : get_type s = .error .formatError := by
            rw [hstep]; unfold get_type_checked; rw [if_pos ht, hp]
          exact ⟨⟨fun _ => Or.inr (Or.inr ⟨t, rfl, ht, rfl⟩), fun _ => heval⟩,
            fun e he => by simpa using he.symm.trans heval,
            fun hne => absurd heval hne⟩
        · have heval : get_type s = .ok (t, .intVal n) := by
            rw [hstep]; unfold get_type_checked; rw [if_pos ht, hp]
          refine ⟨⟨fun h => absurd (heval.symm.trans h) (by simp), ?_⟩,
            fun e he => absurd (heval.symm.trans he) (by simp),
            fun _ => ⟨_, heval⟩⟩
          rintro (h | h | ⟨t', hk', _, hp'⟩)
          · exact absurd hmem h
          · exact absurd h (by simp)
          · exact absurd hp' (by simp)
      · have heval : get_type s = .ok (t, .strVal
            ⟨((s.data.dropWhile (fun x => x ≠ ':')).drop 1).takeWhile
              (fun x => x ≠ ':')⟩) := by
          rw [hstep]; unfold get_type_checked; rw [if_neg ht]
        refine ⟨⟨fun h => absurd (heval.symm.trans h) (by simp), ?_⟩,
          fun e he => absurd (heval.symm.trans he) (by simp),
          fun _ => ⟨_, heval⟩⟩
        rintro (h | h | ⟨t', hk', ht', _⟩)
        · exact absurd hmem h
        · exact absurd h (by simp)
        · have : t' = t := by simpa using hk'.symm
          exact (ht (this ▸ ht')).elim
  · have hfail : get_type s = .error .formatError := by
      unfold get_type
      rw [splitOnChar_not_mem _ _ hmem]
      rfl
    exact ⟨⟨fun _ => Or.inl hmem, fun _ => hfail⟩,
      fun e he => by simpa using he.symm.trans hfail,
      fun hne => absurd hfail hne⟩

/-- C4 (counterexample): client version `1.15.0` produces no version
error at all — the code only raises the client-upgrade error when the
client's *major* version is behind — contradicting the claim that it
maps to the client-must-upgrade error. -/
theorem c4_version_check_counterexample :
    check_version (some "1.15.0") = .proceed ∧
      HookOutcome.proceed ≠ HookOutcome.clientUpgrade := by
  exact ⟨by decide, by decide⟩

/-- C4 (amended): against server version 1.16.1, client `1.17.0` gets
the server-must-upgrade error, client `1.16.0` gets no version error,
and client `1.15.0` also gets no version error (equal major with a
smaller client minor is accepted as backward compatible). -/
theorem c4_version_check :
    check_version (some "1.17.0") = .serverUpgrade ∧
      check_version (some "1.16.0") = .proceed ∧
      check_version (some "1.15.0") = .proceed := by
  exact ⟨by decide, by decide, by decide⟩

/-- C3 (code bug): on a 1000-byte file, `Range: bytes=100-199` returns
only 99 bytes (offsets 100-198) with `Content-Range: bytes
100-198/1000`, because the code computes `length = byte2 - byte1`
without the `+ 1` an inclusive HTTP range requires; the open-ended
`bytes=900-` case is handled correctly (bytes 900-999). -/
theorem c3_byte_range_off_by_one :
    send_file_partial (List.range 1000) (some "bytes=100-199") =
      .partialContent
        { status := 206
          body := ((List.range 1000).drop 100).take 99
          contentRange := some "bytes 100-198/1000" } ∧
      (((List.range 1000).drop 100).take 99).length = 99 ∧
      send_file_partial (List.range 1000) (some "bytes=900-") =
        .partialContent
          { status := 206
            body := (List.range 1000).drop 900
            contentRange := some "bytes 900-999/1000" } ∧
      ((List.range 1000).drop 900).length = 100 := by
  set_option maxRecDepth 10000 in
  refine ⟨?_, by simp, ?_, by simp⟩
  · rfl
  · rfl

/-- C5 (counterexample): with the correct username but neither a
password nor a token/salt pair, the hook returns the
required-parameter error envelope, not HTTP 403 as the claim states. -/
theorem c5_credential_check_counterexample :
    authenticate (fun _ => "") (fun _ => none) "alice" "pw"
        { u := some "alice", p := none, t := none, s := none } =
      .requiredParam ∧
      AuthOutcome.requiredParam ≠ AuthOutcome.forbidden := by
  exact ⟨rfl, by decide⟩

/-- C5 (amended): the request authenticates exactly when the username
matches and either a `p` argument is present and equals the password
(or is `enc:`-hex decoding to it), or `p` is absent and both `t` and
`s` are present with `t = md5hex(password ++ s)`; a matching username
with neither credential form yields the required-parameter error
envelope (HTTP 200), not 403. -/
theorem c5_credential_check (md5hex : String → String)
    (hexDecode : String → Option String) (username password : String)
    (a : AuthArgs) :
    (authenticate md5hex hexDecode username password a = .ok ↔
      a.u = some username ∧
        ((∃ pw, a.p = some pw ∧
            ((pw.startsWith "enc:" = false ∧ pw = password) ∨
              (pw.startsWith "enc:" = true ∧
                hexDecode (pw.drop 4) = some password))) ∨
          (a.p = none ∧ ∃ tok salt, a.t = some tok ∧ a.s = some salt ∧
            tok = md5hex (password ++ salt)))) ∧
    (a.u = some username → a.p = none → (a.t = none ∨ a.s = none) →
      authenticate md5hex hexDecode username password a = .requiredParam) := by
  obtain ⟨u?, p?, t?, s?⟩ := a
  cases u? with
  | none => simp [authenticate]
  | some u =>
    by_cases hu : u = username
    · subst hu
      cases p? with
      | some pw =>
        refine ⟨?_, by intro _ hp; exact absurd hp (by simp)⟩
        by_cases henc : pw.startsWith "enc:"
        · cases hdec : hexDecode (pw.drop 4) with
          | none => simp [authenticate, henc, hdec]
          | some d =>
            by_cases hd : d = password
            · subst hd
              simp [authenticate, henc, hdec]
            · simp [authenticate, henc, hdec, hd, Ne.symm hd]
        · by_cases hpw : pw = password
          · subst hpw
            simp [authenticate, henc]
          · simp [authenticate, henc, hpw]
      | none =>
        cases t? with
        | none => simp [authenticate]
        | some tok =>
          cases s? with
          | none => simp [authenticate]
          | some salt =>
            refine ⟨?_, by intro _ _ h; rcases h with h | h <;> simp at h⟩
            by_cases htok : tok = md5hex (password ++ salt)
            · simp [authenticate, htok]
            · simp [authenticate, htok]
    · simp [authenticate, hu, Ne.symm hu]

/-- Witness for `c5_credential_check`: concrete hash/decoder functions
and arguments carrying a matching plaintext password. -/
theorem c5_credential_check_witness :
    (authenticate (fun x => x) (fun _ => none) "alice" "pw"
        { u := some "alice", p := some "pw", t := none, s := none } = .ok ↔
      (some "alice" : Option String) = some "alice" ∧
        ((∃ pw, (some "pw" : Option String) = some pw ∧
            ((String.startsWith pw "enc:" = false ∧ pw = "pw") ∨
              (String.startsWith pw "enc:" = true ∧
                (fun (_ : String) => (none : Option String)) (pw.drop 4) = some "pw"))) ∨
          ((some "pw" : Option String) = none ∧
            ∃ tok salt, (none : Option String) = some tok ∧
              (none : Option String) = some salt ∧
              tok = (fun x => x) ("pw" ++ salt)))) ∧
    ((some "alice" : Option String) = some "alice" →
      (some "pw" : Option String) = none →
      ((none : Option String) = none ∨ (none : Option String) = none) →
      authenticate (fun x => x) (fun _ => none) "alice" "pw"
        { u := some "alice", p := some "pw", t := none, s := none } =
        .requiredParam) :=
  c5_credential_check (fun x => x) (fun _ => none) "alice" "pw"
    { u := some "alice", p := some "pw", t := none, s := none }

/-- C6 (code bug): the handler compares the numeric watermark against
the *raw query string* (the `int()` conversion is missing).  Under
Python 2 a number is always `<=` a string, so any supplied
`ifModifiedSince` — here `"5"`, numerically below the watermark `10` —
short-circuits to no payload, where the claim requires the indexes
payload to be set; only an absent argument (integer default `0`)
yields the payload. -/
theorem c6_if_modified_since_bug :
    get_indexes (some "5") 10 ["a"] [] = none ∧
      pyParseInt "5" = some 5 ∧ ((5 : Int) < 10) ∧
      (∀ (s : String) (lm : Int) (aa : List String) (sg : List Item),
        get_indexes (some s) lm aa sg = none) ∧
      get_indexes none 10 ["a"] [] =
        some { lastModified := 10, artists := ["a"], children := [] } := by
  refine ⟨rfl, by decide, by decide, ?_, by decide⟩
  intro s lm aa sg
  simp [get_indexes, pyLe]

theorem sampleGo_length (rand : Nat → Nat) :
    ∀ (k step : Nat) (pool : List α),
      (sampleGo rand step k pool).length = min k pool.length
  | 0, _, _ => by simp [sampleGo]
  | k + 1, _, [] => by simp [sampleGo]
  | k + 1, step, x :: xs => by
    rw [sampleGo, List.length_cons,
      sampleGo_length rand k (step + 1)
        (((x :: xs).set (rand step % (x :: xs).length)
          ((x :: xs).getLast (List.cons_ne_nil x xs))).dropLast)]
    simp only [List.length_dropLast, List.length_set, List.length_cons]
    omega

/-- Overwriting the chosen slot with the last element and dropping the
last position deletes exactly the chosen element, up to permutation. -/
theorem pool_perm_step :
    ∀ (pool : List α) (h : pool ≠ []) (j : Nat) (hj : j < pool.length),
      pool.Perm (pool.get ⟨j, hj⟩ :: (pool.set j (pool.getLast h)).dropLast)
  | [x], _, 0, _ => by simp
  | [x], _, j + 1, hj => by simp at hj
  | x :: y :: t, h, 0, hj => by
    have hyt : (y :: t) ≠ [] := List.cons_ne_nil y t
    have hgl : (x :: y :: t).getLast h = (y :: t).getLast hyt :=
      List.getLast_cons hyt
    rw [hgl]
    show (x :: y :: t).Perm
      (x :: (((y :: t).getLast hyt :: y :: t).dropLast))
    rw [List.dropLast_cons_of_ne_nil hyt]
    refine List.Perm.cons x ?_
    have h2 := List.perm_append_singleton ((y :: t).getLast hyt)
      (y :: t).dropLast
    rw [List.dropLast_append_getLast hyt] at h2
    exact h2
  | x :: y :: t, h, j + 1, hj => by
    have hyt : (y :: t) ≠ [] := List.cons_ne_nil y t
    have hj' : j < (y :: t).length := by simpa using hj
    have ih := pool_perm_step (y :: t) hyt j hj'
    have hgl : (x :: y :: t).getLast h = (y :: t).getLast hyt :=
      List.getLast_cons hyt
    rw [hgl]
    have hne : (y :: t).set j ((y :: t).getLast hyt) ≠ [] := by
      intro hcontra
      have := congrArg List.length hcontra
      simp at this
    show (x :: y :: t).Perm ((y :: t).get ⟨j, hj'⟩ ::
      ((x :: (y :: t).set j ((y :: t).getLast hyt)).dropLast))
    rw [List.dropLast_cons_of_ne_nil hne]
    exact ((List.Perm.cons x ih).trans (List.Perm.swap _ _ _))

theorem sampleGo_perm (rand : Nat → Nat) :
    ∀ (k step : Nat) (pool : List α),
      ∃ rest, pool.Perm (sampleGo rand step k pool ++ rest)
  | 0, _, pool => ⟨pool, by simp [sampleGo]⟩
  | k + 1, _, [] => ⟨[], by simp [sampleGo]⟩
  | k + 1, step, x :: xs => by
    obtain ⟨rest, hrest⟩ := sampleGo_perm rand k (step + 1)
      (((x :: xs).set (rand step % (x :: xs).length)
        ((x :: xs).getLast (List.cons_ne_nil x xs))).dropLast)
    refine ⟨rest, ?_⟩
    rw [sampleGo]
    exact (pool_perm_step (x :: xs) (List.cons_ne_nil x xs) _
      (Nat.mod_lt _ (by simp))).trans (List.Perm.cons _ hrest)

theorem sampleGo_nodup (rand : Nat → Nat) (k step : Nat) (pool : List α)
    (h : pool.Nodup) : (sampleGo rand step k pool).Nodup := by
  obtain ⟨rest, hrest⟩ := sampleGo_perm rand k step pool
  exact (hrest.nodup_iff.mp h).of_append_left

/-- C7: `getRandomSongs` (with no `musicFolderId`) returns exactly
`min(size, M)` songs where `M` is the size of the filtered set, and
the result has no duplicates — a sample without replacement. -/
theorem c7_random_songs (rand : Nat → Nat) (lib : Library) (size : Nat)
    (genre fromYear toYear : Option String)
    (hsize : size ≤ 500) (hnd : lib.items.Nodup) :
    (get_random_songs rand lib size genre fromYear toYear none).length =
      min size (lib.items.filter (itemFilter genre fromYear toYear)).length ∧
      (get_random_songs rand lib size genre fromYear toYear none).Nodup := by
  clear hsize
  unfold get_random_songs
  rw [if_pos (by simp)]
  constructor
  · rw [sampleGo_length]
    omega
  · exact sampleGo_nodup _ _ _ _ (hnd.filter _)

/-- Witness for `c7_random_songs`: a two-item catalog, size 1. -/
theorem c7_random_songs_witness :
    ((1 : Nat) ≤ 500) ∧ sampleLibrary.items.Nodup ∧
      ((get_random_songs (fun _ => 0) sampleLibrary 1 none none none
          none).length =
        min 1 (sampleLibrary.items.filter (itemFilter none none none)).length ∧
        (get_random_songs (fun _ => 0) sampleLibrary 1 none none none
          none).Nodup) :=
  ⟨by decide, by decide,
    c7_random_songs (fun _ => 0) sampleLibrary 1 none none none
      (by decide) (by decide)⟩

/-- C10 (counterexample): `musicFolderId` supplied as the empty string
differs from `'1'`, yet the catalog is consulted and a song is
returned — `if not music_folder_id` treats the empty string as absent. -/
theorem c10_music_folder_counterexample :
    get_random_songs (fun _ => 0) sampleLibrary1 1 none none none
        (some "") = sampleLibrary1.items ∧
      sampleLibrary1.items ≠ [] ∧ (some "" : Option String) ≠ some "1" := by
  exact ⟨rfl, by decide, by decide⟩

/-- C10 (amended): if `musicFolderId` is supplied, *non-empty*, and
differs from `'1'`, the operation returns an empty song list without
consulting the catalog; an empty `musicFolderId` is treated as an
absent one by the truthiness test `not music_folder_id`. -/
theorem c10_music_folder (rand : Nat → Nat) (lib : Library) (size : Nat)
    (genre fromYear toYear : Option String) (m : String)
    (hm1 : m ≠ "") (hm2 : m ≠ "1") :
    get_random_songs rand lib size genre fromYear toYear (some m) = [] := by
  unfold get_random_songs
  rw [if_neg (by simp [hm1, hm2])]

/-- Witness for `c10_music_folder` at `musicFolderId = "2"`. -/
theorem c10_music_folder_witness :
    ("2" : String) ≠ "" ∧ ("2" : String) ≠ "1" ∧
      get_random_songs (fun _ => 0) sampleLibrary1 10 none none none
        (some "2") = [] :=
  ⟨by decide, by decide,
    c10_music_folder (fun _ => 0) sampleLibrary1 10 none none none "2"
      (by decide) (by decide)⟩

/-- C8: a successfully decoded id of the wrong kind makes each of the
three lookups fail with the kind-mismatch `ValueError`
(ValidationError), which is a different error from `EntityNotFound`;
and an artist id whose name matches zero albums fails with
`EntityNotFound`. -/
theorem c8_kind_checks (lib : Library) (s1 s2 s3 s4 : String)
    (t1 t2 t3 : BeetIdType) (v1 v2 v3 : IdValue) (name : String)
    (h1 : get_type s1 = .ok (t1, v1)) (hk1 : t1 ≠ .album)
    (h2 : get_type s2 = .ok (t2, v2)) (hk2 : t2 ≠ .item)
    (h3 : get_type s3 = .ok (t3, v3)) (hk3 : t3 ≠ .artist)
    (h4 : get_type s4 = .ok (.artist, .strVal name))
    (hempty : lib.albums.filter (albumArtistMatches name) = []) :
    get_album lib s1 = .error .validationError ∧
      get_song lib s2 = .error .validationError ∧
      get_artist_with_albums lib s3 = .error .validationError ∧
      ModelError.validationError ≠ ModelError.entityNotFound ∧
      get_artist_with_albums lib s4 = .error .entityNotFound := by
  refine ⟨?_, ?_, ?_, by decide, ?_⟩
  · unfold get_album
    rw [h1]
    show get_album_checked lib t1 v1 = _
    unfold get_album_checked
    rw [if_pos hk1]
  · unfold get_song
    rw [h2]
    show get_song_checked lib t2 v2 = _
    unfold get_song_checked
    rw [if_pos hk2]
  · unfold get_artist_with_albums
    rw [h3]
    show get_artist_checked lib s3 t3 v3 = _
    unfold get_artist_checked
    rw [if_pos hk3]
  · unfold get_artist_with_albums
    rw [h4]
    show get_artist_checked lib s4 .artist (.strVal name) = _
    unfold get_artist_checked
    rw [if_neg (by simp)]
    simp [hempty]

/-- Witness for `c8_kind_checks` on an empty library with concrete
mismatched ids. -/
theorem c8_kind_checks_witness :
    get_album emptyLibrary "artist:x" = .error .validationError ∧
      get_song emptyLibrary "album:1" = .error .validationError ∧
      get_artist_with_albums emptyLibrary "album:1" =
        .error .validationError ∧
      ModelError.validationError ≠ ModelError.entityNotFound ∧
      get_artist_with_albums emptyLibrary "artist:x" =
        .error .entityNotFound :=
  c8_kind_checks emptyLibrary "artist:x" "album:1" "album:1" "artist:x"
    .artist .album .album (.strVal "x") (.intVal 1) (.intVal 1) "x"
    rfl (by decide) rfl (by decide) rfl (by decide) rfl rfl

/-- C9 (counterexample): a single-playlist lookup whose file exists but
cannot be opened (an I/O failure while reading) produces a *success*
envelope with no playlist payload — the `IOError` is swallowed inside
`_get_playlist` — not the requested-data-not-found envelope the claim
requires. -/
theorem c9_playlist_io_counterexample :
    web_get_playlist emptyLibrary "playlist:p.m3u" "dir"
        (fun _ => .present false 0 []) "u" = .okEnvelope none ∧
      PlaylistViewOutcome.okEnvelope none ≠ .notFoundError := by
  exact ⟨rfl, by decide⟩

/-- C9 (amended): during a single-playlist lookup only a *missing* file
(whose `os.path.getmtime` raises `OSError`) surfaces as the
EntityNotFound envelope; an existing but unreadable file (whose `open`
raises `IOError`) is swallowed and yields a success envelope with no
payload; during whole-collection enumeration the unreadable files are
silently excluded from the results, with no error. -/
theorem c9_playlist_io (lib : Library) (pid dir username fname : String)
    (fsOf : String → FileState)
    (hdecode : get_type pid = .ok (.playlist, .strVal fname)) :
    (fsOf (dir ++ "/" ++ fname) = .missing →
      web_get_playlist lib pid dir fsOf username = .notFoundError) ∧
    (∀ mtime paths,
      fsOf (dir ++ "/" ++ fname) = .present false mtime paths →
      web_get_playlist lib pid dir fsOf username = .okEnvelope none) ∧
    (∀ (files : List (String × FileState)),
      (∀ f ∈ files, f.2 ≠ FileState.missing) →
      get_playlists lib files username = .ok (files.filterMap (fun f =>
        match f.2 with
        | .present true mtime paths =>
          some (buildPlaylist lib f.1 mtime paths username)
        | _ => none))) := by
  refine ⟨?_, ?_, ?_⟩
  · intro hmiss
    have heval : model_get_playlist lib pid dir fsOf username =
        .error .osError := by
      unfold model_get_playlist
      rw [hdecode]
      show get_playlist_file lib (dir ++ "/" ++ fname)
        (fsOf (dir ++ "/" ++ fname)) username = _
      rw [hmiss]
      rfl
    unfold web_get_playlist
    rw [heval]
  · intro mtime paths hunread
    have heval : model_get_playlist lib pid dir fsOf username = .ok none := by
      unfold model_get_playlist
      rw [hdecode]
      show get_playlist_file lib (dir ++ "/" ++ fname)
        (fsOf (dir ++ "/" ++ fname)) username = _
      rw [hunread]
      rfl
    unfold web_get_playlist
    rw [heval]
  · intro files
    induction files with
    | nil => intro _; rfl
    | cons f rest ih =>
      intro hall
      obtain ⟨loc, fs⟩ := f
      have hne := hall (loc, fs) (List.mem_cons_self _ _)
      have hrest := ih (fun g hg => hall g (List.mem_cons_of_mem _ hg))
      cases fs with
      | missing => exact absurd rfl hne
      | present readable mtime paths =>
        cases readable with
        | false => simp [get_playlists, get_playlist_file, hrest]
        | true => simp [get_playlists, get_playlist_file, hrest]

/-- Witness for `c9_playlist_io`: an unreadable playlist file. -/
theorem c9_playlist_io_witness :
    (get_type "playlist:p.m3u" =
      .ok (.playlist, .strVal "p.m3u")) ∧
    (((fun _ => FileState.present false 0 []) :
        String → FileState) ("dir" ++ "/" ++ "p.m3u") = .missing →
      web_get_playlist emptyLibrary "playlist:p.m3u" "dir"
        (fun _ => .present false 0 []) "u" = .notFoundError) ∧
    (∀ mtime paths,
      ((fun _ => FileState.present false 0 []) :
        String → FileState) ("dir" ++ "/" ++ "p.m3u") =
          .present false mtime paths →
      web_get_playlist emptyLibrary "playlist:p.m3u" "dir"
        (fun _ => .present false 0 []) "u" = .okEnvelope none) ∧
    (∀ (files : List (String × FileState)),
      (∀ f ∈ files, f.2 ≠ FileState.missing) →
      get_playlists emptyLibrary files "u" = .ok (files.filterMap (fun f =>
        match f.2 with
        | .present true mtime paths =>
          some (buildPlaylist emptyLibrary f.1 mtime paths "u")
        | _ => none))) :=
  ⟨rfl, (c9_playlist_io emptyLibrary "playlist:p.m3u" "dir" "u" "p.m3u"
    (fun _ => .present false 0 []) rfl).1,
    (c9_playlist_io emptyLibrary "playlist:p.m3u" "dir" "u" "p.m3u"
      (fun _ => .present false 0 []) rfl).2.1,
    (c9_playlist_io emptyLibrary "playlist:p.m3u" "dir" "u" "p.m3u"
      (fun _ => .present false 0 []) rfl).2.2⟩

end Beetsonic
